import Mathlib

/-!
Verification of the daykit date/time utility library (src/src/index.ts).

The library delegates all calendar knowledge to the host platform's
locale/calendar service (the JavaScript `Intl` API together with the
`Date` constructor's string round-trip).  We model that external
collaborator as an abstract structure `Host`; every public operation of
the library becomes a Lean function of the host plus its explicit
arguments.  Instants are epoch milliseconds (`Int`); an invalid
("NaN") date is `Option.none`; a host call that would throw a
`RangeError` (unsupported timezone id) returns `none`.

Offsets are rationals: the source computes
`(tzDate.getTime() - utcDate.getTime()) / 60000` in floating point, and
the two reparsed times are integral millisecond counts, so the exact
value is the rational difference divided by 60000.
-/

set_option maxRecDepth 20000

/-- The supported time units of `add`/`subtract` (src/src/index.ts lines 4-9). -/
inductive TimeUnit where
  | days
  | hours
  | minutes
  | seconds
  | milliseconds
deriving DecidableEq, Repr

/-- Result record of `getTimezoneInfo` (src/src/index.ts lines 43-48). -/
structure TimezoneInfo where
  name : String
  offset : ℚ
  isDST : Bool
  abbreviation : String
deriving DecidableEq, Repr

/-- Options record of `format` (src/src/index.ts lines 53-57). -/
structure FormatOptions where
  locale : String := "en-US"
  timeZone : String := "UTC"
  hour12 : Option Bool := none

/-- The host calendar/locale service (the `Intl` API plus the local-time
behaviour of `Date`), the library's only external collaborator.

`reparse t z` models `new Date(d.toLocaleString("en-US", {timeZone: z})).getTime()`
for a valid date `d` with epoch milliseconds `t`; `none` models the
`RangeError` thrown for an unsupported timezone id.
`zones` models `Intl.supportedValuesOf("timeZone")`.
`abbrOf t z` models extracting the short `timeZoneName` part, `none` again
modelling the throw on an unsupported zone.
`localYear`, `mkLocal` and `nextDay` model the runtime-local-time `Date`
operations `getFullYear()`, `new Date(y, monthIndex, day)` and
`setDate(getDate() + 1)`.
`localHours`/`localMinutes`/`localSeconds` model `getHours()` etc. of a
reparsed date, and `addDays`/`addHours`/`addMinutes`/`addSeconds` model the
`setDate(getDate()+n)` family used by `add`.
The `parts*` fields model `Intl.DateTimeFormat(...).formatToParts(d)`
field values given (instant, locale, timezone, hour12), and the
month/weekday name fields model the dedicated name formatters. -/
structure Host where
  reparse : Int → String → Option Int
  zones : List String
  abbrOf : Int → String → Option String
  localYear : Int → Int
  mkLocal : Int → Int → Int → Int
  nextDay : Int → Int
  localHours : Int → Int
  localMinutes : Int → Int
  localSeconds : Int → Int
  partsYear : Int → String → String → Bool → String
  partsMonth : Int → String → String → Bool → String
  partsDay : Int → String → String → Bool → String
  partsTZName : Int → String → String → Bool → String
  monthLong : Int → String → String → String
  monthShort : Int → String → String → String
  weekdayLong : Int → String → String → String
  weekdayShort : Int → String → String → String
  addDays : Int → Int → Int
  addHours : Int → Int → Int
  addMinutes : Int → Int → Int
  addSeconds : Int → Int → Int

/-- `Math.abs` on the exact rational value. -/
def jsAbs (q : ℚ) : ℚ := if q < 0 then -q else q

/-- `Math.max` on two rationals. -/
def jsMax (a b : ℚ) : ℚ := if a ≤ b then b else a

/-- The smaller of two rationals (used to state the "smaller reference
offset" side of the DST heuristic). -/
def jsMin (a b : ℚ) : ℚ := if a ≤ b then a else b

/-- The offset computation shared by `getTimezoneInfo` and
`getTimezoneOffset` (src/src/index.ts lines 90-92 and 407-410):
reparse the instant under "UTC" and under the zone and divide the
difference by 60000.  `none` models a thrown `RangeError`.
`Rat.divInt (w - u) 60000` is exactly the rational `((w - u : ℤ) : ℚ) / 60000`
(see `jsOffset_shape`); the `divInt` form is used so the definition
evaluates inside the kernel. -/
def jsOffset (h : Host) (t : Int) (z : String) : Option ℚ := do
  let u ← h.reparse t "UTC"
  let w ← h.reparse t z
  pure (Rat.divInt (w - u) 60000)

/-- The source's `1e-6` comparison tolerance (src/src/index.ts line 118),
as the exact rational. -/
def dstTol : ℚ := mkRat 1 1000000

lemma dstTol_eq : dstTol = 1 / 1000000 := by
  rw [dstTol, Rat.mkRat_eq_div]
  norm_num

/-- The DST decision of `getTimezoneInfo` (src/src/index.ts lines 94-123),
given the already computed current offset.  For "America/New_York" the
flag is `offset ≠ -300`; for "UTC" it is false; otherwise the offsets at
January 1 and July 1 of the instant's (runtime-local) year are compared:
the flag is set exactly when the current offset is within the `1e-6`
tolerance of the larger of the two and the two differ. -/
def dstFlagCore (h : Host) (t : Int) (z : String) (off : ℚ) : Option Bool :=
  if z = "America/New_York" then some (decide (off ≠ -300))
  else if z = "UTC" then some false
  else do
    let janOff ← jsOffset h (h.mkLocal (h.localYear t) 0 1) z
    let julOff ← jsOffset h (h.mkLocal (h.localYear t) 6 1) z
    pure (decide (jsAbs (off - jsMax janOff julOff) < dstTol) && decide (janOff ≠ julOff))

/-- The body of `getTimezoneInfo`'s `try` block (src/src/index.ts lines
86-140); `none` models an exception reaching the `catch`. -/
def getTimezoneInfoCore (h : Host) (t : Int) (z : String) : Option TimezoneInfo := do
  let off ← jsOffset h t z
  let flag ← dstFlagCore h t z off
  let ab ← h.abbrOf t z
  pure ⟨z, off, flag, ab⟩

/-- `getTimezoneInfo` (src/src/index.ts lines 82-149): the `try` body, or
the documented fallback `{name, 0, false, "UTC"}` when it throws. -/
def getTimezoneInfo (h : Host) (t : Int) (z : String) : TimezoneInfo :=
  (getTimezoneInfoCore h t z).getD ⟨z, 0, false, "UTC"⟩

/-- `getTimezoneOffset` (src/src/index.ts lines 402-414): the offset
computation with fallback `0` on any exception. -/
def getTimezoneOffset (h : Host) (t : Int) (z : String) : ℚ :=
  (jsOffset h t z).getD 0

/-- `isDST` (src/src/index.ts lines 156-162): the DST flag of
`getTimezoneInfo(new Date(), timeZone)`.  `clock` is the ambient
current time read by `new Date()`. -/
def isDST (h : Host) (clock : Int) (z : String) : Bool :=
  (getTimezoneInfo h clock z).isDST

/-- `createMoment` (src/src/index.ts lines 64-66): `new Date(date)` with
the argument defaulting to `new Date()`.  The outer `Option` is argument
presence; the inner one is date validity. -/
def createMoment (clock : Int) (d : Option (Option Int)) : Option Int :=
  d.getD (some clock)

/-- The day loop `for (let d = new Date(start); d <= end; d.setDate(d.getDate()+1))`
of `getDSTTransitions` (src/src/index.ts line 199), as the list of visited
instants.  The fuel bounds the iteration count; `getDSTTransitions` passes
1000, which covers any host whose calendar year has at most 1000 days. -/
def scanDays (h : Host) (stop : Int) : Nat → Int → List Int
  | 0, _ => []
  | fuel + 1, d => if d ≤ stop then d :: scanDays h stop fuel (h.nextDay d) else []

/-- The per-day transition test of `getDSTTransitions` (src/src/index.ts
lines 201-205): the day's DST flag differs from that of the instant one
day (86400000 ms) earlier. -/
def dayFlip (h : Host) (z : String) (d : Int) : Bool :=
  (getTimezoneInfo h d z).isDST != (getTimezoneInfo h (d - 86400000) z).isDST

/-- Accumulation of transition days (src/src/index.ts lines 199-208):
a day is recorded when the list is still empty or the flag flipped.
`started` tracks `transitions.length ≠ 0`. -/
def collectAux (h : Host) (z : String) : List Int → Bool → List Int
  | [], _ => []
  | d :: rest, started =>
    if !started || dayFlip h z d then d :: collectAux h z rest true
    else collectAux h z rest true

/-- The transition list produced by the scan, starting from an empty list. -/
def collectTrans (h : Host) (z : String) (days : List Int) : List Int :=
  collectAux h z days false

/-- `getDSTTransitions` (src/src/index.ts lines 170-220).  "UTC" returns
absent/absent at once; an unsupported zone returns absent/absent; the
(2024, "America/New_York") pair returns the hard-coded instants; otherwise
the year is scanned day by day and the first two recorded transition days
are returned. -/
def getDSTTransitions (h : Host) (z : String) (year : Int) : Option Int × Option Int :=
  if z = "UTC" then (none, none)
  else if z ∈ h.zones then
    if year = 2024 ∧ z = "America/New_York" then
      (some 1710054000000, some 1730613600000)
    else
      let ts := collectTrans h z
        (scanDays h (h.mkLocal year 11 31) 1000 (h.mkLocal year 0 1))
      (ts[0]?, ts[1]?)
  else (none, none)

/-- `add` (src/src/index.ts lines 431-455): per-unit mutation of a copy of
the date; an invalid date stays invalid.  Day/hour/minute/second addition
goes through the host's local-calendar `set*`/`get*` pairs; millisecond
addition is exact. -/
def add (h : Host) (d : Option Int) (n : Int) (u : TimeUnit) : Option Int :=
  match d with
  | none => none
  | some t =>
    some (match u with
      | .days => h.addDays t n
      | .hours => h.addHours t n
      | .minutes => h.addMinutes t n
      | .seconds => h.addSeconds t n
      | .milliseconds => t + n)

/-- `subtract` (src/src/index.ts lines 464-470): `add(date, -n, unit)`. -/
def subtract (h : Host) (d : Option Int) (n : Int) (u : TimeUnit) : Option Int :=
  add h d (-n) u

/-- `getUTCHours()` of a valid date with epoch milliseconds `t`. -/
def utcHours (t : Int) : Int := Int.ediv (Int.emod t 86400000) 3600000

/-- `getUTCMinutes()` of a valid date with epoch milliseconds `t`. -/
def utcMinutes (t : Int) : Int := Int.ediv (Int.emod t 3600000) 60000

/-- `getUTCSeconds()` of a valid date with epoch milliseconds `t`. -/
def utcSeconds (t : Int) : Int := Int.ediv (Int.emod t 60000) 1000

/-- `padStart(2, "0")`. -/
def pad2 (s : String) : String :=
  if s.length < 2 then String.mk (List.replicate (2 - s.length) '0') ++ s else s

/-- `slice(-2)`: the last two characters (or the whole string if shorter). -/
def sliceNeg2 (s : String) : String := String.mk (s.toList.drop (s.length - 2))

/-- Whether the character list contains the substring "hh". -/
def hasHH : List Char → Bool
  | 'h' :: 'h' :: _ => true
  | _ :: rest => hasHH rest
  | [] => false

/-- The regex test `/a|A|hh/.test(fmt)` of src/src/index.ts line 236. -/
def hour12Test (fmt : String) : Bool :=
  fmt.toList.contains 'a' || fmt.toList.contains 'A' || hasHH fmt.toList

def tokYYYY : List Char := ['Y', 'Y', 'Y', 'Y']

def tokMMMM : List Char := ['M', 'M', 'M', 'M']

def tokdddd : List Char := ['d', 'd', 'd', 'd']

def tokMMM : List Char := ['M', 'M', 'M']

def tokddd : List Char := ['d', 'd', 'd']

def tokYY : List Char := ['Y', 'Y']

def tokMM : List Char := ['M', 'M']

def tokDD : List Char := ['D', 'D']

def tokHH : List Char := ['H', 'H']

def tokhh : List Char := ['h', 'h']

def tokmm : List Char := ['m', 'm']

def tokss : List Char := ['s', 's']

def tokA : List Char := ['A']

def toka : List Char := ['a']

def tokZ : List Char := ['Z']

/-- The format tokens in the exact alternation order of the source regex
`/YYYY|MMMM|dddd|MMM|ddd|YY|MM|DD|HH|hh|mm|ss|A|a|Z/` (src/src/index.ts
line 330). -/
def tokStrs : List (List Char) :=
  [tokYYYY, tokMMMM, tokdddd, tokMMM, tokddd, tokYY, tokMM, tokDD,
   tokHH, tokhh, tokmm, tokss, tokA, toka, tokZ]

/-- Boolean prefix test on character lists. -/
def isPfx : List Char → List Char → Bool
  | [], _ => true
  | _ :: _, [] => false
  | a :: as, b :: bs => a == b && isPfx as bs

/-- The token matched by the source regex at the start of `cs`: the first
alternative, in the regex's alternation order, that is a prefix of `cs`. -/
def matchTok (cs : List Char) : Option (List Char) :=
  tokStrs.find? (fun tok => isPfx tok cs)

/-- The tokens of a given length. -/
def toksOfLen (k : Nat) : List (List Char) :=
  tokStrs.filter (fun tok => tok.length == k)

/-- Modelled from the spec's words (§3, §4.5): the token matched at the
start of `cs` by greedy longest-match-first search — first the length-4
tokens, then length 3, then 2, then 1.  To be compared with `matchTok`,
the matcher the source's regex alternation order implements. -/
def matchTokSpec (cs : List Char) : Option (List Char) :=
  ((toksOfLen 4).find? (fun tok => isPfx tok cs)).orElse (fun _ =>
    ((toksOfLen 3).find? (fun tok => isPfx tok cs)).orElse (fun _ =>
      ((toksOfLen 2).find? (fun tok => isPfx tok cs)).orElse (fun _ =>
        (toksOfLen 1).find? (fun tok => isPfx tok cs))))

/-- The scan of `fmt.replace(tokenRegex, match => tokenMap[match] ?? match)`
(src/src/index.ts line 331): at each position, substitute the matched token
through `v`, or copy the character through unchanged.  The fuel is an upper
bound on the number of steps; each step consumes at least one character, so
fuel equal to the list length suffices. -/
def substAux (m : List Char → Option (List Char)) (v : List Char → List Char) :
    Nat → List Char → List Char
  | _, [] => []
  | 0, cs => cs
  | fuel + 1, c :: rest =>
    match m (c :: rest) with
    | some tok => v tok ++ substAux m v fuel ((c :: rest).drop tok.length)
    | none => c :: substAux m v fuel rest

/-- The token-replacement pass of `format`, using the source's matcher. -/
def replaceTokens (v : List Char → List Char) (s : String) : String :=
  String.mk (substAux matchTok v s.toList.length s.toList)

/-- A pattern no position of which matches any token. -/
def tokenFree : List Char → Bool
  | [] => true
  | c :: rest => (matchTok (c :: rest)).isNone && tokenFree rest

/-- The token→value table of `format` (src/src/index.ts lines 311-327),
as a function from a matched token to the substituted characters; the
final case is the `?? match` fallback. -/
def tokenValue (yyyy yy mmmm mmm mm dd dddd ddd hh24 hh12 mins secs aUp aLow zn : String)
    (tok : List Char) : List Char :=
  if tok = tokYYYY then yyyy.toList
  else if tok = tokYY then yy.toList
  else if tok = tokMMMM then mmmm.toList
  else if tok = tokMMM then mmm.toList
  else if tok = tokMM then mm.toList
  else if tok = tokDD then dd.toList
  else if tok = tokdddd then dddd.toList
  else if tok = tokddd then ddd.toList
  else if tok = tokHH then hh24.toList
  else if tok = tokhh then hh12.toList
  else if tok = tokmm then mins.toList
  else if tok = tokss then secs.toList
  else if tok = tokA then aUp.toList
  else if tok = toka then aLow.toList
  else if tok = tokZ then zn.toList
  else tok

/-- The body of `format` past the timezone reparse (src/src/index.ts lines
248-332): resolve the civil time fields, build the token table and run the
replacement.  `t` is the valid instant, `tzDate` the reparsed target-zone
date of line 245-246. -/
def formatBody (h : Host) (t tzDate : Int) (fmt : String) (opts : FormatOptions) : String :=
  let useHour12 := opts.hour12.getD (hour12Test fmt)
  let hour24 : Int := if opts.timeZone = "UTC" then utcHours t else h.localHours tzDate
  let minute : String :=
    pad2 (toString (if opts.timeZone = "UTC" then utcMinutes t else h.localMinutes tzDate))
  let second : String :=
    pad2 (toString (if opts.timeZone = "UTC" then utcSeconds t else h.localSeconds tzDate))
  let hour12str : String :=
    if useHour12 then
      pad2 (toString (if Int.emod hour24 12 = 0 then (12 : Int) else Int.emod hour24 12))
    else pad2 (toString hour24)
  let ampm : String := if useHour12 then (if 12 ≤ hour24 then "PM" else "AM") else ""
  let vYear := h.partsYear t opts.locale opts.timeZone useHour12
  let month := pad2 (h.partsMonth t opts.locale opts.timeZone useHour12)
  let vDay := h.partsDay t opts.locale opts.timeZone useHour12
  let vTZ := h.partsTZName t opts.locale opts.timeZone useHour12
  let monthName := h.monthLong tzDate opts.locale opts.timeZone
  let monthShortName := h.monthShort tzDate opts.locale opts.timeZone
  let dayName := h.weekdayLong tzDate opts.locale opts.timeZone
  let dayShortName := h.weekdayShort tzDate opts.locale opts.timeZone
  replaceTokens
    (tokenValue vYear (sliceNeg2 vYear) monthName monthShortName month vDay
      dayName dayShortName (pad2 (toString hour24)) hour12str minute second
      ampm (String.toLower ampm) vTZ) fmt

/-- `format` (src/src/index.ts lines 229-333).  The date argument is the
already constructed `new Date(date)`: `none` is an invalid date and yields
the sentinel.  The result is `none` only when a host renderer throws (the
source has no try/catch here); host formatter construction for the locale
is modelled as total, while the timezone reparse on line 246 may throw. -/
def format (h : Host) (d : Option Int) (fmt : String) (opts : FormatOptions) : Option String :=
  match d with
  | none => some "Invalid Date"
  | some t =>
    (if opts.timeZone = "UTC" then some t else h.reparse t opts.timeZone).map
      (fun tzDate => formatBody h t tzDate fmt opts)

/-- `getTimezoneInfo` with the ambient clock made explicit: the source
body never reads the clock, so the wrapper ignores it. -/
def getTimezoneInfoAt (h : Host) (_clock t : Int) (z : String) : TimezoneInfo :=
  getTimezoneInfo h t z

/-- `getTimezoneOffset` with the ambient clock made explicit. -/
def getTimezoneOffsetAt (h : Host) (_clock t : Int) (z : String) : ℚ :=
  getTimezoneOffset h t z

/-- `getDSTTransitions` with the ambient clock made explicit: the clock is
read only to default an omitted `year` argument (src/src/index.ts line 172). -/
def getDSTTransitionsAt (h : Host) (clock : Int) (z : String) (year : Option Int) :
    Option Int × Option Int :=
  getDSTTransitions h z (year.getD (h.localYear clock))

/-- `format` with the ambient clock made explicit: the body never reads it. -/
def formatAt (h : Host) (_clock : Int) (d : Option Int) (fmt : String)
    (opts : FormatOptions) : Option String :=
  format h d fmt opts

/-- A fictional DST-observing timezone recognised by `testHost`. -/
def testZone : String := "Pacific/Testville"

/-- The reparse behaviour of `testHost`: the runtime-local zone is UTC
(so the "UTC" reparse is the identity), "America/New_York" follows its
documented 2024 offsets (−300 minutes standard, −240 between
2024-03-10T07:00Z and 2024-11-03T06:00Z), `testZone` observes a one-hour
advance from 2025-03-09T00:00Z to 2025-11-02T00:00Z over a zero standard
offset, and every other zone id throws. -/
def testReparse (t : Int) (z : String) : Option Int :=
  if z = "UTC" then some t
  else if z = "America/New_York" then
    some (t + (if 1710054000000 ≤ t ∧ t < 1730613600000 then -14400000 else -18000000))
  else if z = testZone then
    some (t + (if 1741478400000 ≤ t ∧ t < 1762041600000 then 3600000 else 0))
  else none

/-- The timezone-abbreviation behaviour of `testHost`. -/
def testAbbr (t : Int) (z : String) : Option String :=
  if z = "UTC" then some "UTC"
  else if z = "America/New_York" then
    some (if 1710054000000 ≤ t ∧ t < 1730613600000 then "EDT" else "EST")
  else if z = testZone then
    some (if 1741478400000 ≤ t ∧ t < 1762041600000 then "TVST" else "TVT")
  else none

/-- The local-time `Date` constructor of `testHost` (local zone UTC), at
the cells the library evaluates it on. -/
def testMkLocal (y m d : Int) : Int :=
  if y = 2025 ∧ m = 0 ∧ d = 1 then 1735689600000
  else if y = 2025 ∧ m = 6 ∧ d = 1 then 1751328000000
  else if y = 2025 ∧ m = 11 ∧ d = 31 then 1767139200000
  else if y = 2024 ∧ m = 0 ∧ d = 1 then 1704067200000
  else if y = 2024 ∧ m = 6 ∧ d = 1 then 1719792000000
  else 0

/-- A concrete host service instance for evaluating the library at
concrete inputs.  The runtime-local timezone is UTC, so a local calendar
day is exactly 86400000 ms and the local year boundary between 2024 and
2025 sits at 1735689600000 (2025-01-01T00:00Z). -/
def testHost : Host where
  reparse := testReparse
  zones := ["UTC", "America/New_York", testZone]
  abbrOf := testAbbr
  localYear := fun t => if t < 1735689600000 then 2024 else 2025
  mkLocal := testMkLocal
  nextDay := fun t => t + 86400000
  localHours := utcHours
  localMinutes := utcMinutes
  localSeconds := utcSeconds
  partsYear := fun _ _ _ _ => "2024"
  partsMonth := fun _ _ _ _ => "03"
  partsDay := fun _ _ _ _ => "21"
  partsTZName := fun _ _ _ _ => "UTC"
  monthLong := fun _ _ _ => "March"
  monthShort := fun _ _ _ => "Mar"
  weekdayLong := fun _ _ _ => "Thursday"
  weekdayShort := fun _ _ _ => "Thu"
  addDays := fun t n => t + n * 86400000
  addHours := fun t n => t + n * 3600000
  addMinutes := fun t n => t + n * 60000
  addSeconds := fun t n => t + n * 1000

lemma jsAbs_eq_abs (q : ℚ) : jsAbs q = |q| := by
  unfold jsAbs
  by_cases hq : q < 0
  · rw [if_pos hq, abs_of_neg hq]
  · rw [if_neg hq, abs_of_nonneg (not_lt.mp hq)]

lemma jsMin_sub_jsMax (a b : ℚ) : jsAbs (jsMin a b - jsMax a b) = |a - b| := by
  unfold jsMin jsMax
  by_cases hab : a ≤ b
  · simp only [if_pos hab, jsAbs_eq_abs]
  · simp only [if_neg hab, jsAbs_eq_abs, abs_sub_comm]

lemma jsOffset_shape (h : Host) (t : Int) (z : String) (q : ℚ)
    (hq : jsOffset h t z = some q) : ∃ m : ℤ, q = Rat.divInt m 60000 := by
  unfold jsOffset at hq
  cases hu : h.reparse t "UTC" with
  | none => rw [hu] at hq; simp at hq
  | some u =>
    rw [hu] at hq
    cases hw : h.reparse t z with
    | none => rw [hw] at hq; simp at hq
    | some w =>
      rw [hw] at hq
      simp only [Option.bind_eq_bind, Option.some_bind, Option.pure_def,
        Option.some.injEq] at hq
      exact ⟨w - u, hq.symm⟩

lemma divInt_gap (m1 m2 : ℤ)
    (hne : Rat.divInt m1 60000 ≠ Rat.divInt m2 60000) :
    ¬ |Rat.divInt m1 60000 - Rat.divInt m2 60000| < dstTol := by
  have hdi : ∀ m : ℤ, Rat.divInt m 60000 = (m : ℚ) / 60000 := by
    intro m
    rw [Rat.divInt_eq_div]
    norm_num
  rw [hdi, hdi] at hne ⊢
  rw [dstTol_eq]
  have hm : m1 - m2 ≠ 0 := by
    intro he
    apply hne
    have hmm : m1 = m2 := by omega
    rw [hmm]
  have h1 : (1 : ℚ) ≤ |(m1 : ℚ) - (m2 : ℚ)| := by
    have h2 : (1 : ℤ) ≤ |m1 - m2| := Int.one_le_abs hm
    have h3 : ((|m1 - m2| : ℤ) : ℚ) = |(m1 : ℚ) - (m2 : ℚ)| := by
      push_cast
      ring
    calc (1 : ℚ) ≤ ((|m1 - m2| : ℤ) : ℚ) := by exact_mod_cast h2
    _ = |(m1 : ℚ) - (m2 : ℚ)| := h3
  rw [div_sub_div_same, not_lt]
  calc (1 : ℚ) / 1000000 ≤ 1 / 60000 := by norm_num
  _ ≤ |(m1 : ℚ) - (m2 : ℚ)| / 60000 :=
      (div_le_div_iff_of_pos_right (by norm_num)).mpr h1
  _ = |((m1 : ℚ) - (m2 : ℚ)) / 60000| := by
      rw [abs_div]
      norm_num

/-- C5: the zone "UTC" is neutral for every instant and year: the offset
query returns 0, the DST flag is false, and the transitions query returns
the absent/absent pair. -/
theorem utc_zone_neutral (h : Host) (t y : Int) :
    getTimezoneOffset h t "UTC" = 0 ∧ (getTimezoneInfo h t "UTC").isDST = false ∧
      getDSTTransitions h "UTC" y = (none, none) := by
  refine ⟨?_, ?_, ?_⟩
  · unfold getTimezoneOffset jsOffset
    cases hu : h.reparse t "UTC" with
    | none => rfl
    | some u => simp
  · unfold getTimezoneInfo getTimezoneInfoCore
    cases hu : jsOffset h t "UTC" with
    | none => simp
    | some off =>
      simp only [Option.bind_eq_bind, Option.some_bind, dstFlagCore, reduceIte]
      cases hab : h.abbrOf t "UTC" <;> simp
  · simp [getDSTTransitions]

/-- C10: `subtract(d, n, u)` returns exactly `add(d, -n, u)` for every
date input, count and unit. -/
theorem subtract_eq_add_neg (h : Host) (d : Option Int) (n : Int) (u : TimeUnit) :
    subtract h d n u = add h d (-n) u := rfl

/-- C8: for an unparsable date input, `format` returns the literal
`"Invalid Date"` (in particular it does not throw), for every pattern
and options record. -/
theorem format_invalid_sentinel (h : Host) (fmt : String) (opts : FormatOptions) :
    format h none fmt opts = some "Invalid Date" := rfl

/-- C3: for "America/New_York" the computed DST flag is true exactly when
the computed offset differs from −300 minutes; in particular, on the
concrete host at 2024-03-10T06:59:59Z the flag is false with offset −300,
and at 2024-03-10T07:00:00Z it is true with offset −240. -/
theorem ny_dst_iff_offset (h : Host) (t : Int) (inf : TimezoneInfo)
    (hc : getTimezoneInfoCore h t "America/New_York" = some inf) :
    (inf.isDST = true ↔ inf.offset ≠ -300) ∧
      getTimezoneInfo testHost 1710053999000 "America/New_York" =
        ⟨"America/New_York", -300, false, "EST"⟩ ∧
      getTimezoneInfo testHost 1710054000000 "America/New_York" =
        ⟨"America/New_York", -240, true, "EDT"⟩ := by
  refine ⟨?_, by decide, by decide⟩
  unfold getTimezoneInfoCore at hc
  cases hoff : jsOffset h t "America/New_York" with
  | none => rw [hoff] at hc; simp at hc
  | some off =>
    rw [hoff] at hc
    simp only [Option.bind_eq_bind, Option.some_bind, dstFlagCore, reduceIte] at hc
    cases hab : h.abbrOf t "America/New_York" with
    | none => rw [hab] at hc; simp at hc
    | some ab =>
      rw [hab] at hc
      simp only [Option.some_bind, Option.pure_def, Option.some.injEq] at hc
      subst hc
      simp

/-- C3 witness: the theorem applied to the concrete host at
2024-03-10T06:59:59Z. -/
theorem ny_dst_iff_offset_witness :
    getTimezoneInfoCore testHost 1710053999000 "America/New_York" =
        some ⟨"America/New_York", -300, false, "EST"⟩ ∧
      (((⟨"America/New_York", -300, false, "EST"⟩ : TimezoneInfo).isDST = true ↔
          (⟨"America/New_York", -300, false, "EST"⟩ : TimezoneInfo).offset ≠ -300) ∧
        getTimezoneInfo testHost 1710053999000 "America/New_York" =
          ⟨"America/New_York", -300, false, "EST"⟩ ∧
        getTimezoneInfo testHost 1710054000000 "America/New_York" =
          ⟨"America/New_York", -240, true, "EDT"⟩) :=
  ⟨by decide, ny_dst_iff_offset testHost 1710053999000 _ (by decide)⟩

/-- C4: for ("America/New_York", 2024) the transitions query returns the
hard-coded literal pair, for every host that lists the zone as supported
— the scan and all offset behaviour of the host are irrelevant. -/
theorem ny_2024_hardcoded (h : Host) (hmem : "America/New_York" ∈ h.zones) :
    getDSTTransitions h "America/New_York" 2024 =
      (some 1710054000000, some 1730613600000) := by
  unfold getDSTTransitions
  rw [if_neg (by decide : ¬("America/New_York" = "UTC")), if_pos hmem,
    if_pos ⟨rfl, rfl⟩]

/-- C4 witness: the theorem applied to the concrete host. -/
theorem ny_2024_hardcoded_witness :
    ("America/New_York" ∈ testHost.zones) ∧
      getDSTTransitions testHost "America/New_York" 2024 =
        (some 1710054000000, some 1730613600000) :=
  ⟨by decide, ny_2024_hardcoded testHost (by decide)⟩

/-- C6: for a timezone id the host does not recognise (every reparse
throws and the id is absent from the supported list), the public queries
fall back to the documented defaults instead of failing: offset 0, info
record {name, 0, false, "UTC"}, transitions absent/absent. -/
theorem unsupported_zone_fallbacks (h : Host) (z : String) (t y : Int)
    (hrep : ∀ s, h.reparse s z = none) (hmem : z ∉ h.zones) :
    getTimezoneOffset h t z = 0 ∧
      getTimezoneInfo h t z = ⟨z, 0, false, "UTC"⟩ ∧
      getDSTTransitions h z y = (none, none) := by
  have hoff : jsOffset h t z = none := by
    unfold jsOffset
    cases hu : h.reparse t "UTC" with
    | none => rfl
    | some u => simp [hrep t]
  refine ⟨?_, ?_, ?_⟩
  · simp [getTimezoneOffset, hoff]
  · simp [getTimezoneInfo, getTimezoneInfoCore, hoff]
  · unfold getDSTTransitions
    by_cases hz : z = "UTC"
    · rw [if_pos hz]
    · rw [if_neg hz, if_neg hmem]

/-- C6 witness: the theorem applied to the concrete host and the id
"Invalid/Timezone". -/
theorem unsupported_zone_fallbacks_witness :
    getTimezoneOffset testHost 1710054000000 "Invalid/Timezone" = 0 ∧
      getTimezoneInfo testHost 1710054000000 "Invalid/Timezone" =
        ⟨"Invalid/Timezone", 0, false, "UTC"⟩ ∧
      getDSTTransitions testHost "Invalid/Timezone" 2024 = (none, none) :=
  unsupported_zone_fallbacks testHost "Invalid/Timezone" 1710054000000 2024
    (fun _ => rfl) (by decide)

/-- C9 counterexample: `isDST` reads the ambient clock (`new Date()`), so
two calls with the identical explicit argument "America/New_York" against
the same host service return different results at two different clock
readings — the claim's "no dependence on the current clock" fails. -/
theorem isdst_clock_dependent :
    isDST testHost 1710053999000 "America/New_York" ≠
      isDST testHost 1710054000000 "America/New_York" := by decide

/-- C9 amended: every public operation is a pure, deterministic function
of its explicit arguments, the host service, and the ambient clock;
operations that receive their instant, year or date explicitly do not
depend on the clock, while `isDST` (and the defaulted argument of
`createMoment` / `getDSTTransitions`) reads it. -/
theorem operations_pure_given_clock (h : Host) (c c' t yr dd : Int) (z : String)
    (d : Option Int) (fmt : String) (opts : FormatOptions) :
    getTimezoneInfoAt h c t z = getTimezoneInfoAt h c' t z ∧
      getTimezoneOffsetAt h c t z = getTimezoneOffsetAt h c' t z ∧
      getDSTTransitionsAt h c z (some yr) = getDSTTransitionsAt h c' z (some yr) ∧
      formatAt h c d fmt opts = formatAt h c' d fmt opts ∧
      createMoment c (some (some dd)) = createMoment c' (some (some dd)) ∧
      isDST h c z = (getTimezoneInfo h c z).isDST :=
  ⟨rfl, rfl, rfl, rfl, rfl, rfl⟩

/-- C1: for a zone other than "UTC" and "America/New_York" that the host
recognises, the DST flag is false when the January and July reference
offsets agree; otherwise it is true exactly when the current offset is
within the 1e-6 tolerance of the larger reference offset — and an offset
equal to the smaller reference offset always yields false. -/
theorem generic_dst_heuristic (h : Host) (t : Int) (z : String)
    (off janOff julOff : ℚ) (ab : String)
    (hz1 : z ≠ "UTC") (hz2 : z ≠ "America/New_York")
    (hoff : jsOffset h t z = some off)
    (hjan : jsOffset h (h.mkLocal (h.localYear t) 0 1) z = some janOff)
    (hjul : jsOffset h (h.mkLocal (h.localYear t) 6 1) z = some julOff)
    (hab : h.abbrOf t z = some ab) :
    (janOff = julOff → (getTimezoneInfo h t z).isDST = false) ∧
      (janOff ≠ julOff →
        ((getTimezoneInfo h t z).isDST = true ↔
          jsAbs (off - jsMax janOff julOff) < dstTol)) ∧
      (janOff ≠ julOff → off = jsMin janOff julOff →
        (getTimezoneInfo h t z).isDST = false) := by
  have hflag : (getTimezoneInfo h t z).isDST =
      (decide (jsAbs (off - jsMax janOff julOff) < dstTol) &&
        decide (janOff ≠ julOff)) := by
    unfold getTimezoneInfo getTimezoneInfoCore dstFlagCore
    rw [hoff]
    simp only [Option.bind_eq_bind, Option.some_bind]
    rw [if_neg hz2, if_neg hz1, hjan]
    simp only [Option.some_bind]
    rw [hjul]
    simp only [Option.some_bind, Option.pure_def]
    rw [hab]
    simp only [Option.some_bind, Option.getD_some]
  refine ⟨?_, ?_, ?_⟩
  · intro he
    rw [hflag, decide_eq_false (show ¬(janOff ≠ julOff) from fun hn => hn he),
      Bool.and_false]
  · intro hne
    rw [hflag, decide_eq_true hne, Bool.and_true]
    simp
  · intro hne hmin
    obtain ⟨m1, hm1⟩ := jsOffset_shape h _ z janOff hjan
    obtain ⟨m2, hm2⟩ := jsOffset_shape h _ z julOff hjul
    have hgap : ¬ jsAbs (off - jsMax janOff julOff) < dstTol := by
      rw [hmin, jsMin_sub_jsMax, hm1, hm2]
      exact divInt_gap m1 m2 (by rw [← hm1, ← hm2]; exact hne)
    rw [hflag, decide_eq_false hgap, Bool.false_and]

/-- C1 witness: the theorem applied to the concrete host's fictional zone
at 2025-07-01T00:00Z, where the January offset is 0, the July offset 60,
and the current offset 60 (DST in force). -/
theorem generic_dst_heuristic_witness :
    jsOffset testHost 1751328000000 testZone = some 60 ∧
      jsOffset testHost (testHost.mkLocal (testHost.localYear 1751328000000) 0 1)
        testZone = some 0 ∧
      jsOffset testHost (testHost.mkLocal (testHost.localYear 1751328000000) 6 1)
        testZone = some 60 ∧
      (((0 : ℚ) = 60 → (getTimezoneInfo testHost 1751328000000 testZone).isDST = false) ∧
        ((0 : ℚ) ≠ 60 →
          ((getTimezoneInfo testHost 1751328000000 testZone).isDST = true ↔
            jsAbs (60 - jsMax 0 60) < dstTol)) ∧
        ((0 : ℚ) ≠ 60 → (60 : ℚ) = jsMin 0 60 →
          (getTimezoneInfo testHost 1751328000000 testZone).isDST = false)) :=
  ⟨by decide, by decide, by decide,
    generic_dst_heuristic testHost 1751328000000 testZone 60 0 60 "TVST"
      (by decide) (by decide) (by decide) (by decide) (by decide) (by decide)⟩

lemma collectAux_true (h : Host) (z : String) :
    ∀ l : List Int, collectAux h z l true = l.filter (dayFlip h z) := by
  intro l
  induction l with
  | nil => rfl
  | cons d rest ih =>
    rw [collectAux, List.filter_cons]
    by_cases hd : dayFlip h z d
    · rw [if_pos hd, ih]
      simp [hd]
    · rw [ih]
      simp [hd]

lemma collectTrans_cons (h : Host) (z : String) (d : Int) (rest : List Int) :
    collectTrans h z (d :: rest) = d :: rest.filter (dayFlip h z) := by
  rw [collectTrans, collectAux, if_pos (by simp), collectAux_true]

/-- C2 amended: for a zone with exactly one DST period in the scanned year
(exactly two scan days whose flag differs from the previous day's), and
whose first scan day is not itself a flip day, the scan returns the
unconditionally recorded baseline January 1 as `start` and the first flip
day as `end`; the second flip day is discarded. -/
theorem scan_baseline_start (h : Host) (z : String) (year f1 f2 : Int)
    (hz : z ≠ "UTC") (hmem : z ∈ h.zones)
    (hny : ¬(year = 2024 ∧ z = "America/New_York"))
    (hle : h.mkLocal year 0 1 ≤ h.mkLocal year 11 31)
    (hflips : (scanDays h (h.mkLocal year 11 31) 1000 (h.mkLocal year 0 1)).filter
        (dayFlip h z) = [f1, f2])
    (hd0 : dayFlip h z (h.mkLocal year 0 1) = false) :
    getDSTTransitions h z year = (some (h.mkLocal year 0 1), some f1) := by
  have hdays : scanDays h (h.mkLocal year 11 31) 1000 (h.mkLocal year 0 1) =
      h.mkLocal year 0 1 ::
        scanDays h (h.mkLocal year 11 31) 999 (h.nextDay (h.mkLocal year 0 1)) := by
    rw [show (1000 : Nat) = 999 + 1 from rfl, scanDays, if_pos hle]
  have hrest : (scanDays h (h.mkLocal year 11 31) 999
      (h.nextDay (h.mkLocal year 0 1))).filter (dayFlip h z) = [f1, f2] := by
    rw [hdays, List.filter_cons] at hflips
    simpa [hd0] using hflips
  simp only [getDSTTransitions]
  rw [if_neg hz, if_pos hmem, if_neg hny, hdays, collectTrans_cons, hrest]
  rfl
set_option maxHeartbeats 8000000

/-- C2 counterexample: on the concrete host, the fictional zone's DST flag
flips on exactly two scan days of 2025 — 1741478400000 (2025-03-09) and
1762041600000 (2025-11-02) — yet `getDSTTransitions` returns
(2025-01-01, 2025-03-09): the unconditionally recorded baseline first day
and the first flip day, not the two flip days. -/
theorem scan_baseline_counterexample :
    (scanDays testHost (testHost.mkLocal 2025 11 31) 1000
        (testHost.mkLocal 2025 0 1)).filter (dayFlip testHost testZone) =
      [1741478400000, 1762041600000] ∧
      getDSTTransitions testHost testZone 2025 =
        (some 1735689600000, some 1741478400000) ∧
      getDSTTransitions testHost testZone 2025 ≠
        (some 1741478400000, some 1762041600000) := by
  have hflips : (scanDays testHost (testHost.mkLocal 2025 11 31) 1000
      (testHost.mkLocal 2025 0 1)).filter (dayFlip testHost testZone) =
      [1741478400000, 1762041600000] := by with_unfolding_all decide
  have hd0 : dayFlip testHost testZone (testHost.mkLocal 2025 0 1) = false := by
    with_unfolding_all decide
  have hdays : scanDays testHost (testHost.mkLocal 2025 11 31) 1000
      (testHost.mkLocal 2025 0 1) =
      testHost.mkLocal 2025 0 1 ::
        scanDays testHost (testHost.mkLocal 2025 11 31) 999
          (testHost.nextDay (testHost.mkLocal 2025 0 1)) := by
    rw [show (1000 : Nat) = 999 + 1 from rfl, scanDays, if_pos (by decide)]
  have hrest : (scanDays testHost (testHost.mkLocal 2025 11 31) 999
      (testHost.nextDay (testHost.mkLocal 2025 0 1))).filter
      (dayFlip testHost testZone) = [1741478400000, 1762041600000] := by
    rw [hdays, List.filter_cons] at hflips
    simpa [hd0] using hflips
  have h2 : getDSTTransitions testHost testZone 2025 =
      (some 1735689600000, some 1741478400000) := by
    simp only [getDSTTransitions]
    rw [if_neg (by decide), if_pos (by decide), if_neg (by decide), hdays,
      collectTrans_cons, hrest]
    decide
  exact ⟨hflips, h2, by rw [h2]; decide⟩

/-- C2 witness: the amended theorem applied to the concrete host's
fictional zone over 2025. -/
theorem scan_baseline_start_witness :
    (testZone ∈ testHost.zones) ∧
      dayFlip testHost testZone (testHost.mkLocal 2025 0 1) = false ∧
      getDSTTransitions testHost testZone 2025 =
        (some (testHost.mkLocal 2025 0 1), some 1741478400000) := by
  have hflips : (scanDays testHost (testHost.mkLocal 2025 11 31) 1000
      (testHost.mkLocal 2025 0 1)).filter (dayFlip testHost testZone) =
      [1741478400000, 1762041600000] := by with_unfolding_all decide
  have hd0 : dayFlip testHost testZone (testHost.mkLocal 2025 0 1) = false := by
    with_unfolding_all decide
  exact ⟨by decide, hd0,
    scan_baseline_start testHost testZone 2025 1741478400000 1762041600000
      (by decide) (by decide) (by decide) (by decide) hflips hd0⟩

lemma findFirstAppend {α : Type} (p : α → Bool) :
    ∀ l1 l2 : List α, (l1 ++ l2).find? p = (l1.find? p).orElse (fun _ => l2.find? p) := by
  intro l1 l2
  induction l1 with
  | nil => simp [List.find?]
  | cons a l ih =>
    by_cases ha : p a <;> simp [List.find?, ha, ih]

lemma tokStrs_grouped :
    tokStrs = toksOfLen 4 ++ (toksOfLen 3 ++ (toksOfLen 2 ++ toksOfLen 1)) := by decide

lemma matchTok_eq_spec (cs : List Char) : matchTok cs = matchTokSpec cs := by
  rw [matchTok, tokStrs_grouped]
  simp only [findFirstAppend]
  rfl

lemma tokenFree_subst (v : List Char → List Char) :
    ∀ (fuel : Nat) (cs : List Char), tokenFree cs = true →
      substAux matchTok v fuel cs = cs := by
  intro fuel
  induction fuel with
  | zero => intro cs _; cases cs <;> rfl
  | succ n ih =>
    intro cs hfree
    cases cs with
    | nil => rfl
    | cons c rest =>
      rw [tokenFree] at hfree
      have h1 : matchTok (c :: rest) = none := by
        cases hm : matchTok (c :: rest) with
        | none => rfl
        | some tok => rw [hm] at hfree; simp at hfree
      have h2 : tokenFree rest = true := by
        rw [h1] at hfree
        simpa using hfree
      simp only [substAux, h1, ih rest h2]

lemma stringMk_toList (s : String) : String.mk s.toList = s := rfl

lemma format_some (h : Host) (t w : Int) (fmt : String) (opts : FormatOptions)
    (hw : (if opts.timeZone = "UTC" then some t else h.reparse t opts.timeZone) = some w) :
    format h (some t) fmt opts = some (formatBody h t w fmt opts) := by
  simp only [format]
  rw [hw]
  rfl

lemma formatBody_yyyy_yy (h : Host) (t w : Int) (opts : FormatOptions)
    (hYear : h.partsYear t opts.locale opts.timeZone (opts.hour12.getD false) = "2024") :
    formatBody h t w "YYYY-YY" opts = "2024-24" := by
  simp only [formatBody]
  rw [show hour12Test "YYYY-YY" = false from by decide, hYear]
  rfl

/-- C7: the token replacement of `format` matches, at each position, the
same token as the spec's greedy longest-first matcher (length 4, then 3,
then 2, then 1) and copies unmatched characters through: in particular,
for an instant whose rendered year is "2024", the pattern "YYYY-YY"
formats to "2024-24" ("YYYY" is never consumed as "YY"+"YY"), and a
pattern without any token occurrence is returned verbatim. -/
theorem token_formatter_longest_match (cs : List Char) (h : Host) (t : Int)
    (opts : FormatOptions) (fm : String)
    (hYear : h.partsYear t opts.locale opts.timeZone (opts.hour12.getD false) = "2024")
    (hTZ : opts.timeZone = "UTC" ∨ ∃ w, h.reparse t opts.timeZone = some w)
    (hFree : tokenFree fm.toList = true) :
    matchTok cs = matchTokSpec cs ∧
      format h (some t) "YYYY-YY" opts = some "2024-24" ∧
      format h (some t) fm opts = some fm := by
  have hex : ∃ w, (if opts.timeZone = "UTC" then some t
      else h.reparse t opts.timeZone) = some w := by
    by_cases htz : opts.timeZone = "UTC"
    · exact ⟨t, by rw [if_pos htz]⟩
    · rcases hTZ with htz' | ⟨w, hw⟩
      · exact absurd htz' htz
      · exact ⟨w, by rw [if_neg htz]; exact hw⟩
  obtain ⟨w, hw⟩ := hex
  refine ⟨matchTok_eq_spec cs, ?_, ?_⟩
  · rw [format_some h t w "YYYY-YY" opts hw, formatBody_yyyy_yy h t w opts hYear]
  · rw [format_some h t w fm opts hw]
    congr 1
    simp only [formatBody, replaceTokens]
    rw [tokenFree_subst _ _ _ hFree, stringMk_toList]

/-- C7 witness: the theorem applied to the concrete host at instant 0 with
the UTC zone, the no-token pattern "Hello World!", and an arbitrary
position list. -/
theorem token_formatter_longest_match_witness :
    matchTok ['Y'] = matchTokSpec ['Y'] ∧
      format testHost (some 0) "YYYY-YY" ⟨"en-US", "UTC", none⟩ = some "2024-24" ∧
      format testHost (some 0) "Hello World!" ⟨"en-US", "UTC", none⟩ =
        some "Hello World!" :=
  token_formatter_longest_match ['Y'] testHost 0 ⟨"en-US", "UTC", none⟩ "Hello World!"
    (by decide) (Or.inl rfl) (by decide)
